import Mathlib

/-!
Shallow embedding of the derivation pipeline of `src/app.py` (fire-viz):
record filtering by cause, yearly aggregation of burned acres, the rolling
smoother used by the charts, the stationarity narrative around `adfuller`,
and the destroyed/recovered property join with its valuation sums.
-/

namespace FireViz

/-- One wildfire record, as used after loading: `YEAR` (blank years already
dropped by `load_data`), `CAUSE`, and `GIS_ACRES`. -/
structure FireRecord where
  year : ℤ
  cause : ℤ
  acres : ℚ
deriving DecidableEq

/-- The cause-name → numeric-code dictionary `cause_dict` of `src/app.py`. -/
def cause_dict : List (String × ℤ) :=
  [("Lightning", 1), ("Equipment Use", 2), ("Smoking", 3), ("Campfire", 4),
   ("Debris", 5), ("Railroad", 6), ("Arson", 7), ("Playing with fire", 8),
   ("Miscellaneous", 9), ("Vehicle", 10), ("Powerline", 11),
   ("Unknown / Unidentified", 14), ("Escaped Prescribed Burn", 18)]

/-- Code of `cause_dict` for a selector string; the selector values offered by
the UI are exactly the dictionary keys plus "All", so the default 0 is never
reached on real inputs. -/
def causeCode (s : String) : ℤ := (cause_dict.lookup s).getD 0

/-- Lines 132-133 of `src/app.py`: `if cause_option != 'All': df =
df[df.CAUSE == cause_dict[cause_option]]`. -/
def recordFilter (records : List FireRecord) (cause_option : String) :
    List FireRecord :=
  if cause_option ≠ "All" then
    records.filter (fun r => r.cause = causeCode cause_option)
  else records

/-- The distinct years of a record list, ascending — the index produced by
`df.groupby('YEAR')` (pandas sorts group keys). -/
def groupYears (records : List FireRecord) : List ℤ :=
  List.insertionSort (· ≤ ·) (records.map FireRecord.year).dedup

/-- Sum of `GIS_ACRES` over the records of one year group. -/
def sumAcres (records : List FireRecord) (y : ℤ) : ℚ :=
  ((records.filter (fun r => r.year = y)).map FireRecord.acres).sum

/-- Line 136 of `src/app.py`: `tot = df.groupby('YEAR')['GIS_ACRES'].sum()`,
as an ordered (year, total-acres) series. -/
def tot_all (records : List FireRecord) : List (ℤ × ℚ) :=
  (groupYears records).map (fun y => (y, sumAcres records y))

/-- Line 140 of `src/app.py` generalised over the cutoff:
`tot = tot[tot.year > minKey]`. -/
def totMin (minKey : ℤ) (records : List FireRecord) : List (ℤ × ℚ) :=
  (tot_all records).filter (fun p => minKey < p.1)

/-- Line 140 of `src/app.py` with its hardcoded cutoff: `tot = tot[tot.year > 1910]`. -/
def tot (records : List FireRecord) : List (ℤ × ℚ) := totMin 1910 records

/-- Line 169 of `src/app.py`: the series handed to `adfuller` is `tot.year`,
the time-key column of the aggregated frame (after the cause filter); the
`pd.to_datetime` cast of line 141 is order- and identity-preserving on the
year key and is modelled as the identity. -/
def adfuller_input (cause_option : String) (records : List FireRecord) :
    List ℤ :=
  (tot (recordFilter records cause_option)).map Prod.fst

/-- Lines 172-175 of `src/app.py`: the stationarity label from the p-value. -/
def stationarity (pvalue : ℚ) : String :=
  if 1 - pvalue < 5 / 100 then "non-stationary" else "stationary"

/-- Round to the nearest integer with ties to even, the rounding of
`np.round` (used at lines 190, 368, 402, 412-414 of `src/app.py`). -/
def npRound (q : ℚ) : ℤ :=
  if q - ⌊q⌋ < 1 / 2 then ⌊q⌋
  else if 1 / 2 < q - ⌊q⌋ then ⌊q⌋ + 1
  else if ⌊q⌋ % 2 = 0 then ⌊q⌋ else ⌊q⌋ + 1

/-- Round to `k` decimal places, ties to even: `np.round(q, k)`. -/
def npRoundTo (k : ℕ) (q : ℚ) : ℚ := (npRound (q * 10 ^ k) : ℚ) / 10 ^ k

/-- Lines 169-193 of `src/app.py`, parametric in the external test: the
`adfuller` call on the aggregated series' year column, followed by the
labelling of lines 172-175 and the numbers interpolated into the narrative
markdown (the cause option, the label, and `np.round(1 - pvalue, 2)`). The
call is not wrapped in any handler, so a failing test propagates as an
error and no narrative is produced. -/
def stationarity_narrative (adf : List ℤ → Except String ℚ)
    (cause_option : String) (records : List FireRecord) :
    Except String (String × String × ℚ) :=
  match adf (adfuller_input cause_option records) with
  | Except.error e => Except.error e
  | Except.ok p => Except.ok (cause_option, stationarity p, npRoundTo 2 (1 - p))

/-- Modelled from the spec: `statsmodels.tsa.stattools.adfuller` is not part
of this repository. Per the spec it fails when the series has fewer than the
test's minimum required observations ("typically < 4-5 points"; we take 4),
and otherwise returns a p-value in [0,1]; the p-value itself is statistical
output irrelevant to the error-path claims and is modelled by the fixed
value 1/2. -/
def adfuller_model (series : List ℤ) : Except String ℚ :=
  if series.length < 4 then Except.error "insufficient data" else Except.ok (1 / 2)

/-- The window of row indices of a rolling frame `[-wb, wa]` around index
`i` in a column of length `n` (Nat subtraction clips the lower bound at 0,
membership in `range n` clips the upper bound at `n - 1`). -/
def windowIdx (n wb wa i : ℕ) : List ℕ :=
  (List.range n).filter (fun j => i - wb ≤ j ∧ j ≤ i + wa)

/-- Mean of the values inside the rolling frame at index `i`. -/
def rollingMean (wb wa : ℕ) (vals : List ℚ) (i : ℕ) : ℚ :=
  ((windowIdx vals.length wb wa i).map (fun j => vals.getD j 0)).sum /
    ((windowIdx vals.length wb wa i).length : ℚ)

/-- Modelled from the spec: the rolling mean of lines 152-160 (and 300-319)
of `src/app.py` is declared there as an Altair `transform_window` with
`rolling_mean='mean(col)'` and `frame=[-wb, wa]` and executed by the
charting library, which is not part of this repository. Per the spec, the
output has one row per input row, keys unchanged, and each output value is
the arithmetic mean over the frame clipped to the available data. The fire
chart uses `frame=[-window, 0]` (trailing), the climate chart
`frame=[-nfdrs_window, nfdrs_window]` (symmetric). -/
def line_smooth (wb wa : ℕ) (series : List (ℤ × ℚ)) : List (ℤ × ℚ) :=
  (List.range series.length).map (fun i =>
    ((series.getD i (0, 0)).1, rollingMean wb wa (series.map Prod.snd) i))

/-- The window of the spec's sentence, spelled with integer `max`/`min`:
all indices `j` with `max 0 (i - wb) ≤ j ≤ min (n - 1) (i + wa)`. Stated
separately from `windowIdx` so that the smoother's clipping behaviour can
be compared against the spec's wording. -/
def specWindowIdx (n wb wa i : ℕ) : List ℕ :=
  (List.range n).filter (fun j =>
    max 0 ((i : ℤ) - wb) ≤ (j : ℤ) ∧ (j : ℤ) ≤ min ((n : ℤ) - 1) ((i : ℤ) + wa))

/-- One row of `data/ALL_burnt_homes.csv` as read at lines 354-357 of
`src/app.py` (`usecols=["address", "lat", "lon", "zestimate"]`). -/
structure PropertyRecord where
  address : String
  lat : ℚ
  lon : ℚ
  zestimate : ℚ
deriving DecidableEq

/-- Line 366 of `src/app.py`: `pd.merge(burnt, recovered, how='left',
on=['address'])` where the recovered frame carries only `address` and the
constant `status = "recovered"` (line 364). A pandas left merge emits, for
each left row in order, one output row per matching right row, and a single
row with a missing `status` when there is no match. -/
def merge_left (burnt : List PropertyRecord) (recovered : List String) :
    List (PropertyRecord × Option String) :=
  burnt.flatMap (fun b =>
    let ms := recovered.filter (fun a => a = b.address)
    if ms.length = 0 then [(b, none)]
    else ms.map (fun _ => (b, some "recovered")))

/-- Line 367 of `src/app.py`: `homes.status[homes.status != 'recovered'] =
'destroyed'` — every row whose merged status is not `"recovered"` becomes
`"destroyed"`. -/
def homes (burnt : List PropertyRecord) (recovered : List String) :
    List (PropertyRecord × String) :=
  (merge_left burnt recovered).map (fun r =>
    (r.1, if r.2 = some "recovered" then "recovered" else "destroyed"))

/-- Line 397 of `src/app.py`: `int(np.sum(homes.zestimate[homes.status ==
'destroyed']))`, on the zestimates pre-rounded at line 368
(`np.round(homes.zestimate, 0)`); the sum of integer-valued entries is
itself integral, so `int` is exact. -/
def destroyed_value (burnt : List PropertyRecord) (recovered : List String) : ℤ :=
  (((homes burnt recovered).filter (fun r => r.2 = "destroyed")).map
    (fun r => npRound r.1.zestimate)).sum

/-- Line 398 of `src/app.py`, as `destroyed_value` with status `'recovered'`. -/
def recovered_value (burnt : List PropertyRecord) (recovered : List String) : ℤ :=
  (((homes burnt recovered).filter (fun r => r.2 = "recovered")).map
    (fun r => npRound r.1.zestimate)).sum

/-- Line 414 of `src/app.py`: `np.round(recovered_value / (recovered_value +
destroyed_value), 3)*100`. Python raises `ZeroDivisionError` on a zero
denominator; the fallible division is modelled with `Option`. -/
def recovered_pct (burnt : List PropertyRecord) (recovered : List String) :
    Option ℚ :=
  let d := destroyed_value burnt recovered
  let r := recovered_value burnt recovered
  if r + d = 0 then none
  else some (npRoundTo 3 ((r : ℚ) / ((r : ℚ) + (d : ℚ))) * 100)

lemma windowIdx_eq_spec (n wb wa i : ℕ) :
    windowIdx n wb wa i = specWindowIdx n wb wa i := by
  unfold windowIdx specWindowIdx
  refine List.filter_congr (fun j hj => ?_)
  rw [List.mem_range] at hj
  rw [decide_eq_decide]
  omega

/-- C5: for any window sizes and any input series (including the empty
one), the smoother's output has the same length and key sequence as the
input; the value at index `i` is the arithmetic mean of the input values at
exactly the indices `j` with `max 0 (i - wb) ≤ j ≤ min (length - 1)
(i + wa)` — windows clipped to the data, no padding; and the trailing
window-1 smoother maps [(2017,10),(2018,20),(2019,30)] to
[(2017,10),(2018,15),(2019,25)]. -/
theorem line_smooth_spec (wb wa : ℕ) (series : List (ℤ × ℚ)) :
    (line_smooth wb wa series).length = series.length ∧
    (line_smooth wb wa series).map Prod.fst = series.map Prod.fst ∧
    (∀ i, i < series.length →
      ((line_smooth wb wa series).getD i (0, 0)).2 =
        ((specWindowIdx series.length wb wa i).map
            (fun j => (series.map Prod.snd).getD j 0)).sum /
          ((specWindowIdx series.length wb wa i).length : ℚ)) ∧
    line_smooth 1 0 [(2017, 10), (2018, 20), (2019, 30)] =
      [(2017, 10), (2018, 15), (2019, 25)] := by
  refine ⟨by simp [line_smooth], ?_, ?_, ?_⟩
  · refine List.ext_getElem (by simp [line_smooth]) (fun n h1 h2 => ?_)
    have hn : n < series.length := by simpa [line_smooth] using h2
    simp [line_smooth, List.getElem?_eq_getElem hn]
  · intro i hi
    have hlen : i < (line_smooth wb wa series).length := by
      simpa [line_smooth] using hi
    rw [List.getD_eq_getElem _ _ hlen]
    simp only [line_smooth, List.getElem_map, List.getElem_range]
    unfold rollingMean
    rw [windowIdx_eq_spec]
    simp [List.length_map]
  · have hr : List.range 3 = [0, 1, 2] := by decide
    have h0 : windowIdx 3 1 0 0 = [0] := by decide
    have h1 : windowIdx 3 1 0 1 = [0, 1] := by decide
    have h2 : windowIdx 3 1 0 2 = [1, 2] := by decide
    simp [line_smooth, rollingMean, hr, h0, h1, h2, List.getD]
    norm_num

/-- Witness for `line_smooth_spec`: the clipped-window mean identity at
index 1 of the scenario series. -/
theorem line_smooth_spec_witness :
    1 < ([(2017, 10), (2018, 20), (2019, 30)] : List (ℤ × ℚ)).length ∧
    ((line_smooth 1 0 [(2017, 10), (2018, 20), (2019, 30)]).getD 1 (0, 0)).2 =
      ((specWindowIdx 3 1 0 1).map
          (fun j => (([(2017, 10), (2018, 20), (2019, 30)] :
            List (ℤ × ℚ)).map Prod.snd).getD j 0)).sum /
        ((specWindowIdx 3 1 0 1).length : ℚ) :=
  ⟨by decide,
    (line_smooth_spec 1 0 [(2017, 10), (2018, 20), (2019, 30)]).2.2.1 1 (by decide)⟩

/-- A one-record input whose aggregated series is too short for the test. -/
def recs1 : List FireRecord := [⟨2018, 1, 100⟩]

/-- A four-year input whose aggregated series meets the test's minimum. -/
def recs4 : List FireRecord := [⟨2015, 1, 10⟩, ⟨2016, 1, 20⟩, ⟨2017, 1, 30⟩, ⟨2018, 1, 40⟩]

/-- A two-record input with one year on each side of the 1910 cutoff. -/
def recsMin : List FireRecord := [⟨2018, 1, 100⟩, ⟨1900, 1, 50⟩]

lemma groupYears_nodup (records : List FireRecord) :
    (groupYears records).Nodup :=
  (List.perm_insertionSort _ _).symm.nodup
    (List.nodup_dedup (records.map FireRecord.year))

lemma groupYears_sorted (records : List FireRecord) :
    (groupYears records).Sorted (· < ·) :=
  (List.sorted_insertionSort _ _).lt_of_le (groupYears_nodup records)

lemma keys_totMin (minKey : ℤ) (records : List FireRecord) :
    (totMin minKey records).map Prod.fst =
      (groupYears records).filter (fun y => minKey < y) := by
  unfold totMin tot_all
  rw [List.filter_map, List.map_map]
  rw [show (Prod.fst ∘ fun y : ℤ => (y, sumAcres records y)) = id from rfl]
  rw [List.map_id]
  exact List.filter_congr (fun x _ => rfl)

/-- C6: for every filtered record set and cutoff, the aggregated series has
strictly increasing keys, each appearing at most once; a group with key
less than or equal to the cutoff is excluded from the output while every
group with key strictly greater than the cutoff is kept. -/
theorem totMin_keys_strict (records : List FireRecord) (minKey : ℤ) :
    ((totMin minKey records).map Prod.fst).Sorted (· < ·) ∧
    ((totMin minKey records).map Prod.fst).Nodup ∧
    (∀ p ∈ tot_all records, p.1 ≤ minKey → p ∉ totMin minKey records) ∧
    (∀ p ∈ tot_all records, minKey < p.1 → p ∈ totMin minKey records) := by
  refine ⟨?_, ?_, ?_, ?_⟩
  · rw [keys_totMin]
    exact (groupYears_sorted records).filter _
  · rw [keys_totMin]
    exact (groupYears_nodup records).filter _
  · intro p hp hle
    simp only [totMin, List.mem_filter, decide_eq_true_eq]
    rintro ⟨-, h2⟩
    omega
  · intro p hp hlt
    simp only [totMin, List.mem_filter, decide_eq_true_eq]
    exact ⟨hp, hlt⟩

/-- Witness for `totMin_keys_strict`: the 1900 group of `recsMin` is
dropped by the 1910 cutoff and the 2018 group is kept. -/
theorem totMin_keys_strict_witness :
    ((1900 : ℤ), (50 : ℚ)) ∈ tot_all recsMin ∧
    ((1900 : ℤ), (50 : ℚ)) ∉ totMin 1910 recsMin ∧
    ((2018 : ℤ), (100 : ℚ)) ∈ totMin 1910 recsMin := by
  have hm : ((1900 : ℤ), (50 : ℚ)) ∈ tot_all recsMin := by
    simp [tot_all, groupYears, sumAcres, recsMin, List.insertionSort,
      List.orderedInsert, List.dedup]
  have hm2 : ((2018 : ℤ), (100 : ℚ)) ∈ tot_all recsMin := by
    simp [tot_all, groupYears, sumAcres, recsMin, List.insertionSort,
      List.orderedInsert, List.dedup]
  exact ⟨hm, (totMin_keys_strict recsMin 1910).2.2.1 _ hm (by decide),
    (totMin_keys_strict recsMin 1910).2.2.2 _ hm2 (by decide)⟩

lemma recordFilter_years_map_acres (cause_option : String)
    (records : List FireRecord) (f : FireRecord → ℚ) :
    (recordFilter (records.map (fun r => { r with acres := f r }))
        cause_option).map FireRecord.year =
      (recordFilter records cause_option).map FireRecord.year := by
  unfold recordFilter
  by_cases h : cause_option = "All"
  · simp [h, List.map_map]
  · simp only [ne_eq, h, not_false_eq_true, if_pos]
    rw [List.filter_map, List.map_map]
    rfl

/-- C3: the series handed to the unit-root test is the aggregated series'
year column; rewriting every record's burned-acres value arbitrarily leaves
the test input unchanged, so the acreage values never enter the test. -/
theorem adfuller_tests_years (cause_option : String)
    (records : List FireRecord) (f : FireRecord → ℚ) :
    adfuller_input cause_option
        (records.map (fun r => { r with acres := f r })) =
      adfuller_input cause_option records := by
  unfold adfuller_input tot
  rw [keys_totMin, keys_totMin]
  unfold groupYears
  rw [recordFilter_years_map_acres]

/-- C8: for every input record collection, `RecordFilter` invoked with the
"All" sentinel returns a collection equal to the input — the same records
in the same relative order, none added, removed, or modified. -/
theorem recordFilter_all (records : List FireRecord) :
    recordFilter records "All" = records := by
  simp [recordFilter]

/-- C2: for every p-value the classifier can receive, the label is
"non-stationary" exactly when `1 - pvalue` is strictly below the 0.05
significance level, and "stationary" otherwise. -/
theorem stationarity_iff (p : ℚ) :
    (stationarity p = "non-stationary" ↔ 1 - p < 5 / 100) ∧
    (stationarity p = "stationary" ↔ ¬(1 - p < 5 / 100)) := by
  unfold stationarity
  by_cases h : 1 - p < 5 / 100 <;> simp [h]

/-- C7 counterexample: on a concrete input whose aggregated series is too
short for the unit-root test, the pipeline of lines 169-193 yields an
uncaught error — there is no handler — rather than a narrative fallback
message. -/
theorem narrative_short_counterexample :
    stationarity_narrative adfuller_model "All" [] =
      Except.error "insufficient data" := rfl

/-- C7 (amended): whenever the aggregated series has fewer observations
than the unit-root test's minimum, the test call fails and, since lines
169-193 of `src/app.py` wrap it in no handler, the error propagates
uncaught: no narrative is produced and the script run aborts. -/
theorem narrative_short_error (cause_option : String)
    (records : List FireRecord)
    (h : (adfuller_input cause_option records).length < 4) :
    stationarity_narrative adfuller_model cause_option records =
      Except.error "insufficient data" := by
  unfold stationarity_narrative adfuller_model
  rw [if_pos h]

/-- Witness for `narrative_short_error` at a concrete one-year input. -/
theorem narrative_short_error_witness :
    (adfuller_input "All" recs1).length < 4 ∧
    stationarity_narrative adfuller_model "All" recs1 =
      Except.error "insufficient data" :=
  ⟨by decide, narrative_short_error "All" recs1 (by decide)⟩

/-- C10: whenever the test returns p-value `p`, the number shown as the
"p-value" in the narrative is `np.round(1 - p, 2)` — one minus the raw
p-value, rounded to two decimals — and (e.g. at p = 1/4) that displayed
number is not the raw p-value itself. -/
theorem narrative_displays_one_minus_p (adf : List ℤ → Except String ℚ)
    (cause_option : String) (records : List FireRecord) (p : ℚ)
    (h : adf (adfuller_input cause_option records) = Except.ok p) :
    stationarity_narrative adf cause_option records =
      Except.ok (cause_option, stationarity p, npRoundTo 2 (1 - p)) ∧
    npRoundTo 2 (1 - (1 / 4 : ℚ)) ≠ (1 / 4 : ℚ) := by
  constructor
  · unfold stationarity_narrative
    rw [h]
  · norm_num [npRoundTo, npRound]

/-- Witness for `narrative_displays_one_minus_p` with the modelled test on
a concrete four-year input. -/
theorem narrative_displays_one_minus_p_witness :
    adfuller_model (adfuller_input "All" recs4) = Except.ok (1 / 2) ∧
    (stationarity_narrative adfuller_model "All" recs4 =
        Except.ok ("All", stationarity (1 / 2), npRoundTo 2 (1 - (1 / 2))) ∧
      npRoundTo 2 (1 - (1 / 4 : ℚ)) ≠ (1 / 4 : ℚ)) :=
  ⟨by rfl, narrative_displays_one_minus_p adfuller_model "All" recs4 (1 / 2) (by rfl)⟩

lemma filter_eq_length_le_one {α : Type} [DecidableEq α] {l : List α}
    (hl : l.Nodup) (a : α) :
    (l.filter (fun x => x = a)).length ≤ 1 := by
  induction l with
  | nil => simp
  | cons x xs ih =>
    rw [List.nodup_cons] at hl
    by_cases hx : x = a
    · have hnil : xs.filter (fun x => x = a) = [] := by
        rw [List.filter_eq_nil_iff]
        intro y hy
        simp only [decide_eq_true_eq]
        intro hya
        exact hl.1 ((hx.trans hya.symm) ▸ hy)
      simp [List.filter_cons, hx, hnil]
    · simp only [List.filter_cons, hx, decide_eq_true_eq, if_neg]
      simpa using ih hl.2

lemma merge_left_map_fst (burnt : List PropertyRecord) (recovered : List String)
    (h : recovered.Nodup) :
    (merge_left burnt recovered).map Prod.fst = burnt := by
  induction burnt with
  | nil => rfl
  | cons b bs ih =>
    unfold merge_left
    rw [List.flatMap_cons, List.map_append]
    have hblock : ((let ms := recovered.filter (fun a => a = b.address);
        if ms.length = 0 then [(b, (none : Option String))]
        else ms.map (fun _ => (b, some "recovered"))).map Prod.fst) = [b] := by
      by_cases h0 : (recovered.filter (fun a => a = b.address)).length = 0
      · simp only [h0, if_pos]
        rfl
      · have hle := filter_eq_length_le_one h b.address
        have h1 : (recovered.filter (fun a => a = b.address)).length = 1 := by
          omega
        obtain ⟨a, ha⟩ := List.length_eq_one.mp h1
        simp only [ha, h0, if_neg]
        simp [ha]
    rw [hblock]
    exact congrArg (b :: ·) ih

lemma homes_map_fst (burnt : List PropertyRecord) (recovered : List String)
    (h : recovered.Nodup) :
    (homes burnt recovered).map Prod.fst = burnt := by
  unfold homes
  rw [List.map_map]
  exact merge_left_map_fst burnt recovered h

lemma mem_merge_left_fst {burnt : List PropertyRecord} {recovered : List String}
    {r : PropertyRecord × Option String} (hr : r ∈ merge_left burnt recovered) :
    r.1 ∈ burnt := by
  unfold merge_left at hr
  rw [List.mem_flatMap] at hr
  obtain ⟨b, hb, hrb⟩ := hr
  by_cases h0 : (recovered.filter (fun a => a = b.address)).length = 0
  · simp only [h0, if_pos] at hrb
    rw [List.mem_singleton] at hrb
    rw [hrb]
    exact hb
  · simp only [h0, ite_false] at hrb
    rw [List.mem_map] at hrb
    obtain ⟨a, ha, hra⟩ := hrb
    rw [← hra]
    exact hb

/-- A destroyed home with a matching recovered-set address. -/
def pA : PropertyRecord := ⟨"A", 0, 0, 200⟩

/-- A destroyed home with no match in the recovered set. -/
def pB : PropertyRecord := ⟨"B", 0, 0, 100⟩

/-- C1 counterexample: with a duplicate address in the recovered set, the
left merge emits one row per match, so the joined collection has two rows
for a one-row destroyed set. -/
theorem homes_length_dup_counterexample :
    (homes [pA] ["A", "A"]).length = 2 ∧
    ([pA] : List PropertyRecord).length = 1 := by decide

/-- C1 (amended): the joined collection has exactly one row per
destroyed-set row, for any destroyed set (duplicates there included),
provided the recovered set contains no duplicate addresses; with
duplicates in the recovered set a destroyed row is repeated once per
match. -/
theorem homes_length (burnt : List PropertyRecord) (recovered : List String)
    (h : recovered.Nodup) :
    (homes burnt recovered).length = burnt.length := by
  have hh := congrArg List.length (homes_map_fst burnt recovered h)
  simpa using hh

/-- Witness for `homes_length` at a concrete duplicate-free input. -/
theorem homes_length_witness :
    (["A"] : List String).Nodup ∧ (homes [pA] ["A"]).length = [pA].length :=
  ⟨by decide, homes_length [pA] ["A"] (by decide)⟩

lemma sum_map_filter_add {α : Type} (l : List α) (p : α → Bool) (f : α → ℤ) :
    ((l.filter p).map f).sum + ((l.filter (fun x => !p x)).map f).sum =
      (l.map f).sum := by
  induction l with
  | nil => simp
  | cons x xs ih =>
    cases hp : p x <;> simp [List.filter_cons, hp] <;> rw [← ih] <;> ring

lemma homes_status {burnt : List PropertyRecord} {recovered : List String}
    {r : PropertyRecord × String} (hr : r ∈ homes burnt recovered) :
    r.2 = "recovered" ∨ r.2 = "destroyed" := by
  unfold homes at hr
  obtain ⟨s, hs, rfl⟩ := List.mem_map.mp hr
  by_cases h : s.2 = some "recovered" <;> simp [h]

lemma destroyed_filter_eq (burnt : List PropertyRecord)
    (recovered : List String) :
    (homes burnt recovered).filter (fun r => r.2 = "destroyed") =
      (homes burnt recovered).filter (fun r => !(r.2 = "recovered")) := by
  refine List.filter_congr (fun r hr => ?_)
  rcases homes_status hr with h | h <;> simp [h]

/-- C4: for destroyed- and recovered-set inputs with no duplicate
addresses, the destroyed-status sum plus the recovered-status sum of the
whole-unit pre-rounded assessed values equals the sum of those rounded
values over the entire destroyed-set input. -/
theorem value_conservation (burnt : List PropertyRecord)
    (recovered : List String)
    (h1 : (burnt.map PropertyRecord.address).Nodup) (h2 : recovered.Nodup) :
    destroyed_value burnt recovered + recovered_value burnt recovered =
      (burnt.map (fun b => npRound b.zestimate)).sum := by
  unfold destroyed_value recovered_value
  rw [destroyed_filter_eq, add_comm]
  rw [sum_map_filter_add (homes burnt recovered)
    (fun r => decide (r.2 = "recovered")) (fun r => npRound r.1.zestimate)]
  rw [show ((fun r : PropertyRecord × String => npRound r.1.zestimate)) =
    ((fun b => npRound b.zestimate) ∘ Prod.fst) from rfl]
  rw [← List.map_map, homes_map_fst burnt recovered h2]

/-- Witness for `value_conservation` on the spec's two-home scenario. -/
theorem value_conservation_witness :
    (([pA, pB].map PropertyRecord.address).Nodup ∧
      (["A"] : List String).Nodup) ∧
    destroyed_value [pA, pB] ["A"] + recovered_value [pA, pB] ["A"] =
      ([pA, pB].map (fun b => npRound b.zestimate)).sum :=
  ⟨⟨by decide, by decide⟩, value_conservation [pA, pB] ["A"] (by decide) (by decide)⟩

lemma sum_status_zero (burnt : List PropertyRecord) (recovered : List String)
    (st : String) (h : ∀ b ∈ burnt, npRound b.zestimate = 0) :
    (((homes burnt recovered).filter (fun r => r.2 = st)).map
      (fun r => npRound r.1.zestimate)).sum = 0 := by
  refine List.sum_eq_zero (fun x hx => ?_)
  rw [List.mem_map] at hx
  obtain ⟨r, hr, rfl⟩ := hx
  have hrm : r ∈ homes burnt recovered := List.mem_of_mem_filter hr
  unfold homes at hrm
  obtain ⟨s, hs, rfl⟩ := List.mem_map.mp hrm
  exact h _ (mem_merge_left_fst hs)

/-- C9: the recovered-value percentage of line 414 divides by
`recovered_value + destroyed_value` with no zero guard: whenever every
destroyed-set assessed value rounds to zero — in particular for an empty
destroyed set — the denominator is zero and the computation fails instead
of producing a value. -/
theorem recovered_pct_div_zero (burnt : List PropertyRecord)
    (recovered : List String)
    (h : ∀ b ∈ burnt, npRound b.zestimate = 0) :
    recovered_pct burnt recovered = none := by
  have hd : destroyed_value burnt recovered = 0 :=
    sum_status_zero burnt recovered "destroyed" h
  have hr : recovered_value burnt recovered = 0 :=
    sum_status_zero burnt recovered "recovered" h
  simp [recovered_pct, hd, hr]

/-- A destroyed home whose assessed value rounds to zero. -/
def pQ : PropertyRecord := ⟨"Q", 0, 0, 1 / 4⟩

/-- Witness for `recovered_pct_div_zero` at a concrete one-home input
whose value rounds to zero. -/
theorem recovered_pct_div_zero_witness :
    recovered_pct [pQ] [] = none :=
  recovered_pct_div_zero [pQ] [] (by
    intro b hb
    rw [List.mem_singleton] at hb
    subst hb
    norm_num [pQ, npRound])

end FireViz
